import Mathlib

/-
Verification of the spdlog global facade and level-gating layer
(src/include/spdlog/spdlog.h).  The facade header declares the registry
operations and defines inline the leveled convenience wrappers, the
default-logger log dispatch, and the compile-time gating blocks
(SPDLOG_LOGGER_TRACE .. SPDLOG_CRITICAL).  The registry and logger class
bodies live in headers that are not part of this tree, so those parts are
modelled from the specification, as marked on each definition.
-/

namespace spdlog

/-- Modelled from the spec: the severity scale of spdlog.common.h (not under
src/): an ordered finite enumeration trace < debug < info < warn < err <
critical < off, compared numerically. -/
inductive Level where
  | trace
  | debug
  | info
  | warn
  | err
  | critical
  | off
deriving DecidableEq

/-- Numeric encoding of a level, matching the SPDLOG_LEVEL_TRACE ..
SPDLOG_LEVEL_OFF constants (0 .. 6) that the gating blocks of spdlog.h
compare against SPDLOG_ACTIVE_LEVEL. -/
def Level.toNat : Level → Nat
  | .trace => 0
  | .debug => 1
  | .info => 2
  | .warn => 3
  | .err => 4
  | .critical => 5
  | .off => 6

/-- Decoding of a raw numeric value into a level: only 0 .. 6 are
recognized, every other value is invalid. -/
def Level.ofNat? : Nat → Option Level
  | 0 => some .trace
  | 1 => some .debug
  | 2 => some .info
  | 3 => some .warn
  | 4 => some .err
  | 5 => some .critical
  | 6 => some .off
  | _ => none

/-- A record as observed by a sink spy: severity plus the format template
and its argument list (rendering is out of scope). -/
structure SinkRecord where
  lvl : Level
  fmt : String
  args : List String
deriving DecidableEq

/-- Modelled from the spec: the logger collaborator of spdlog.logger.h (not
under src/).  It carries a unique id standing for the identity of the
shared instance, its immutable name, its mutable runtime threshold, and
spy counters observing the format/sink path and the error-handler hook. -/
structure Logger where
  id : Nat
  name : String
  currentLevel : Level
  sinkFails : Bool
  sinkWrites : List SinkRecord
  formatCount : Nat
  errorHandlerCount : Nat
deriving DecidableEq

/-- Modelled from the spec: the runtime gate check performed before
formatting, record.level >= logger.current_level. -/
def Logger.shouldLog (lg : Logger) (lvl : Level) : Bool :=
  lg.currentLevel.toNat ≤ lvl.toNat

/-- Modelled from the spec: the log entry point of the logger collaborator.
If the runtime gate rejects the record the call returns at once, touching
neither the formatter, the sinks, nor the error handler; otherwise the
record is formatted and either committed to the sink or, on a sink
failure, routed to the error-handler hook. -/
def Logger.log (lg : Logger) (lvl : Level) (fmt : String) (args : List String) : Logger :=
  if lg.shouldLog lvl then
    let formatted := { lg with formatCount := lg.formatCount + 1 }
    if lg.sinkFails then
      { formatted with errorHandlerCount := formatted.errorHandlerCount + 1 }
    else
      { formatted with sinkWrites := formatted.sinkWrites ++ [⟨lvl, fmt, args⟩] }
  else
    lg

/-- Modelled from the spec: the process-wide global configuration consulted
when the default logger is lazily created. -/
structure GlobalConfig where
  level : Level
deriving DecidableEq

/-- Baseline global configuration of a fresh process. -/
def GlobalConfig.init : GlobalConfig := { level := Level.info }

/-- Modelled from the spec: the registry state of spdlog.details.registry.h
(not under src/): the name to logger mapping with unique keys, the
distinguished default-logger reference, and the periodic-flush timers
currently running. -/
structure Registry where
  loggers : List (String × Logger)
  defaultLogger : Option Logger
  flushTimers : List Nat
deriving DecidableEq

/-- A freshly initialized, empty registry. -/
def Registry.init : Registry := { loggers := [], defaultLogger := none, flushTimers := [] }

/-- Modelled from the spec: get returns the shared logger registered under
the name, or an absent result when the name is unknown; a lookup miss is
never an error (the declaration and its comment are at spdlog.h lines
49-52). -/
def get (name : String) (r : Registry) : Option Logger :=
  r.loggers.lookup name

/-- Modelled from the spec: register_logger (declared at spdlog.h line 85)
inserts the logger under its name and fails loudly with a naming-conflict
error when the name is already present, never overwriting. -/
def register_logger (lg : Logger) (r : Registry) : Except String Registry :=
  if (r.loggers.lookup lg.name).isSome then
    Except.error ("logger with name " ++ lg.name ++ " already exists")
  else
    Except.ok { r with loggers := r.loggers ++ [(lg.name, lg)] }

/-- Runner mirroring the caller-visible effect of register_logger: on a
naming conflict the error is surfaced synchronously and the registry the
caller holds is left exactly as it was. -/
def tryRegister (lg : Logger) (r : Registry) : Registry × Option String :=
  match register_logger lg r with
  | Except.ok r2 => (r2, none)
  | Except.error e => (r, some e)

/-- Modelled from the spec: drop removes one entry, a no-op if absent. -/
def drop (name : String) (r : Registry) : Registry :=
  { r with loggers := r.loggers.filter (fun p => p.1 != name) }

/-- Modelled from the spec: drop_all clears every entry and detaches the
default-logger reference. -/
def drop_all (r : Registry) : Registry :=
  { r with loggers := [], defaultLogger := none }

/-- Modelled from the spec: shutdown (declared at spdlog.h line 99) stops
the periodic-flush scheduler if one is running and then performs
drop_all; the registry re-initializes lazily on next use. -/
def shutdown (r : Registry) : Registry :=
  drop_all { r with flushTimers := [] }

/-- Modelled from the spec: flush_every (spdlog.h lines 75-79 forwards to
the registry) starts the process-wide periodic flusher; starting it while
one is already running cancels the old timer and starts the new interval,
restart semantics rather than stacking. -/
def flush_every (interval : Nat) (r : Registry) : Registry :=
  { r with flushTimers := [interval] }

/-- Number of concurrently active periodic-flush timers. -/
def activeFlushCount (r : Registry) : Nat :=
  r.flushTimers.length

/-- Modelled from the spec: set_default_logger (declared at spdlog.h line
123) atomically replaces the default-logger reference. -/
def set_default_logger (lg : Logger) (r : Registry) : Registry :=
  { r with defaultLogger := some lg }

/-- Modelled from the spec: the default logger lazily created with the
baseline global configuration (global level, console-like sink) when none
was explicitly set. -/
def baselineLogger (cfg : GlobalConfig) : Logger :=
  { id := 0, name := "", currentLevel := cfg.level, sinkFails := false
    sinkWrites := [], formatCount := 0, errorHandlerCount := 0 }

/-- Modelled from the spec: default_logger (declared at spdlog.h line 119)
returns the process-wide default, never null: if no default was
explicitly set one is lazily created with the baseline configuration and
stored. -/
def default_logger (cfg : GlobalConfig) (r : Registry) : Logger × Registry :=
  match r.defaultLogger with
  | some lg => (lg, r)
  | none => (baselineLogger cfg, { r with defaultLogger := some (baselineLogger cfg) })

/-- Modelled from the spec: set_level (declared at spdlog.h line 65) sets
the global runtime threshold; an invalid or unrecognized raw level value
is rejected at the point of assignment with a synchronous failure. -/
def set_level (raw : Nat) (cfg : GlobalConfig) : Except String GlobalConfig :=
  match Level.ofNat? raw with
  | some l => Except.ok { cfg with level := l }
  | none => Except.error "invalid level value"

/-- Runner mirroring the caller-visible effect of set_level: on rejection
the error is surfaced synchronously and the ambient configuration the
caller holds is unchanged. -/
def trySetLevel (raw : Nat) (cfg : GlobalConfig) : GlobalConfig × Option String :=
  match set_level raw cfg with
  | Except.ok cfg2 => (cfg2, none)
  | Except.error e => (cfg, some e)

/-- Facade log dispatch, from spdlog.h lines 140-144: log(lvl, fmt, args)
forwards to default_logger_raw()->log(lvl, fmt, args); the updated logger
is stored back through the shared default-logger reference. -/
def log (cfg : GlobalConfig) (lvl : Level) (fmt : String) (args : List String)
    (r : Registry) : Registry :=
  let p := default_logger cfg r
  { p.2 with defaultLogger := some (Logger.log p.1 lvl fmt args) }

/-- Facade log dispatch for the plain-string overload, from spdlog.h lines
152-156: log(lvl, msg) forwards the message with no format arguments. -/
def logStr (cfg : GlobalConfig) (lvl : Level) (msg : String) (r : Registry) : Registry :=
  let p := default_logger cfg r
  { p.2 with defaultLogger := some (Logger.log p.1 lvl msg []) }

/-- From spdlog.h lines 226-230: trace(fmt, args) = log(level::trace, fmt, args). -/
def trace (cfg : GlobalConfig) (fmt : String) (args : List String) (r : Registry) : Registry :=
  log cfg Level.trace fmt args r

/-- From spdlog.h lines 232-236: debug(fmt, args) = log(level::debug, fmt, args). -/
def debug (cfg : GlobalConfig) (fmt : String) (args : List String) (r : Registry) : Registry :=
  log cfg Level.debug fmt args r

/-- From spdlog.h lines 238-242: info(fmt, args) = log(level::info, fmt, args). -/
def info (cfg : GlobalConfig) (fmt : String) (args : List String) (r : Registry) : Registry :=
  log cfg Level.info fmt args r

/-- From spdlog.h lines 244-248: warn(fmt, args) = log(level::warn, fmt, args). -/
def warn (cfg : GlobalConfig) (fmt : String) (args : List String) (r : Registry) : Registry :=
  log cfg Level.warn fmt args r

/-- From spdlog.h lines 250-254: error(fmt, args) = log(level::err, fmt, args). -/
def error (cfg : GlobalConfig) (fmt : String) (args : List String) (r : Registry) : Registry :=
  log cfg Level.err fmt args r

/-- From spdlog.h lines 256-260: critical(fmt, args) = log(level::critical, fmt, args). -/
def critical (cfg : GlobalConfig) (fmt : String) (args : List String) (r : Registry) : Registry :=
  log cfg Level.critical fmt args r

/-- From spdlog.h lines 263-266: trace(msg) = log(level::trace, msg). -/
def traceStr (cfg : GlobalConfig) (msg : String) (r : Registry) : Registry :=
  logStr cfg Level.trace msg r

/-- From spdlog.h lines 268-271: debug(msg) = log(level::debug, msg). -/
def debugStr (cfg : GlobalConfig) (msg : String) (r : Registry) : Registry :=
  logStr cfg Level.debug msg r

/-- From spdlog.h lines 273-276: info(msg) = log(level::info, msg). -/
def infoStr (cfg : GlobalConfig) (msg : String) (r : Registry) : Registry :=
  logStr cfg Level.info msg r

/-- From spdlog.h lines 278-281: warn(msg) = log(level::warn, msg). -/
def warnStr (cfg : GlobalConfig) (msg : String) (r : Registry) : Registry :=
  logStr cfg Level.warn msg r

/-- From spdlog.h lines 283-286: error(msg) = log(level::err, msg). -/
def errorStr (cfg : GlobalConfig) (msg : String) (r : Registry) : Registry :=
  logStr cfg Level.err msg r

/-- From spdlog.h lines 288-291: critical(msg) = log(level::critical, msg). -/
def criticalStr (cfg : GlobalConfig) (msg : String) (r : Registry) : Registry :=
  logStr cfg Level.critical msg r

/-- What a leveled call site expands to at build time: either the real
dispatch at a fixed level or a no-op statement, (void)0. -/
inductive Expansion where
  | noop
  | dispatch (lvl : Level)
deriving DecidableEq

/-- From spdlog.h line 313: SPDLOG_LOGGER_CALL(logger, level, args) is
(logger)->log(source_loc, level, args). -/
def SPDLOG_LOGGER_CALL (lg : Logger) (lvl : Level) (fmt : String) (args : List String) : Logger :=
  lg.log lvl fmt args

/-- Evaluation of an expanded call site against a logger: a no-op evaluates
no argument and leaves every observable state untouched; a real dispatch
evaluates the arguments and performs SPDLOG_LOGGER_CALL.  The boolean
records whether the argument expressions were evaluated. -/
def Expansion.run (e : Expansion) (lg : Logger) (fmt : String) (args : List String) :
    Logger × Bool :=
  match e with
  | .noop => (lg, false)
  | .dispatch lvl => (SPDLOG_LOGGER_CALL lg lvl fmt args, true)

/-- The common shape of the six gating blocks at spdlog.h lines 316-362:
the call site at a given level expands to the real dispatch when
SPDLOG_ACTIVE_LEVEL <= SPDLOG_LEVEL_X, and to (void)0 otherwise. -/
def leveledCallSiteExpansion (activeLevel : Nat) (lvl : Level) : Expansion :=
  if activeLevel ≤ lvl.toNat then Expansion.dispatch lvl else Expansion.noop

/-- From spdlog.h lines 316-322: SPDLOG_LOGGER_TRACE. -/
def SPDLOG_LOGGER_TRACE (activeLevel : Nat) : Expansion :=
  if activeLevel ≤ Level.trace.toNat then Expansion.dispatch Level.trace else Expansion.noop

/-- From spdlog.h lines 324-330: SPDLOG_LOGGER_DEBUG. -/
def SPDLOG_LOGGER_DEBUG (activeLevel : Nat) : Expansion :=
  if activeLevel ≤ Level.debug.toNat then Expansion.dispatch Level.debug else Expansion.noop

/-- From spdlog.h lines 332-338: SPDLOG_LOGGER_INFO. -/
def SPDLOG_LOGGER_INFO (activeLevel : Nat) : Expansion :=
  if activeLevel ≤ Level.info.toNat then Expansion.dispatch Level.info else Expansion.noop

/-- From spdlog.h lines 340-346: SPDLOG_LOGGER_WARN. -/
def SPDLOG_LOGGER_WARN (activeLevel : Nat) : Expansion :=
  if activeLevel ≤ Level.warn.toNat then Expansion.dispatch Level.warn else Expansion.noop

/-- From spdlog.h lines 348-354: SPDLOG_LOGGER_ERROR. -/
def SPDLOG_LOGGER_ERROR (activeLevel : Nat) : Expansion :=
  if activeLevel ≤ Level.err.toNat then Expansion.dispatch Level.err else Expansion.noop

/-- From spdlog.h lines 356-362: SPDLOG_LOGGER_CRITICAL. -/
def SPDLOG_LOGGER_CRITICAL (activeLevel : Nat) : Expansion :=
  if activeLevel ≤ Level.critical.toNat then Expansion.dispatch Level.critical else Expansion.noop

/-- From spdlog.h line 318: SPDLOG_TRACE is SPDLOG_LOGGER_TRACE applied to
default_logger_raw(); in the disabled branch (line 321) it is the same
(void)0. -/
def SPDLOG_TRACE (activeLevel : Nat) : Expansion := SPDLOG_LOGGER_TRACE activeLevel

/-- From spdlog.h lines 326 and 329: SPDLOG_DEBUG. -/
def SPDLOG_DEBUG (activeLevel : Nat) : Expansion := SPDLOG_LOGGER_DEBUG activeLevel

/-- From spdlog.h lines 334 and 337: SPDLOG_INFO. -/
def SPDLOG_INFO (activeLevel : Nat) : Expansion := SPDLOG_LOGGER_INFO activeLevel

/-- From spdlog.h lines 342 and 345: SPDLOG_WARN. -/
def SPDLOG_WARN (activeLevel : Nat) : Expansion := SPDLOG_LOGGER_WARN activeLevel

/-- From spdlog.h lines 350 and 353: SPDLOG_ERROR. -/
def SPDLOG_ERROR (activeLevel : Nat) : Expansion := SPDLOG_LOGGER_ERROR activeLevel

/-- From spdlog.h lines 358 and 361: SPDLOG_CRITICAL. -/
def SPDLOG_CRITICAL (activeLevel : Nat) : Expansion := SPDLOG_LOGGER_CRITICAL activeLevel

/-- Concrete spy logger at runtime threshold info, used by witnesses. -/
def spyLogger : Logger :=
  { id := 1, name := "A", currentLevel := Level.info, sinkFails := false
    sinkWrites := [], formatCount := 0, errorHandlerCount := 0 }

/-- Concrete logger first registered under the name svc. -/
def lgFirst : Logger :=
  { id := 2, name := "svc", currentLevel := Level.info, sinkFails := false
    sinkWrites := [], formatCount := 0, errorHandlerCount := 0 }

/-- Concrete second logger also named svc, a distinct instance. -/
def lgSecond : Logger :=
  { id := 3, name := "svc", currentLevel := Level.debug, sinkFails := false
    sinkWrites := [], formatCount := 0, errorHandlerCount := 0 }

/-- Concrete registry already holding lgFirst under svc. -/
def regSvc : Registry :=
  { loggers := [("svc", lgFirst)], defaultLogger := none, flushTimers := [] }

/-- A lookup misses exactly when the name is absent from the key column. -/
theorem lookup_eq_none_iff (n : String) (l : List (String × Logger)) :
    l.lookup n = none ↔ n ∉ l.map Prod.fst := by
  induction l with
  | nil => simp [List.lookup]
  | cons p t ih =>
    obtain ⟨k, b⟩ := p
    by_cases hk : n = k
    · subst hk
      simp [List.lookup]
    · have hbeq : (n == k) = false := by simp [hk]
      simp [List.lookup, hbeq, hk, ih]

/-- A successful lookup returns a pair that is in the list. -/
theorem lookup_some_mem (n : String) (lg : Logger) (l : List (String × Logger)) :
    l.lookup n = some lg → (n, lg) ∈ l := by
  induction l with
  | nil => intro h; simp [List.lookup] at h
  | cons p t ih =>
    obtain ⟨k, b⟩ := p
    by_cases hk : n = k
    · subst hk
      intro h
      simp [List.lookup] at h
      subst h
      exact List.mem_cons_self _ _
    · have hbeq : (n == k) = false := by simp [hk]
      intro h
      simp [List.lookup, hbeq] at h
      exact List.mem_cons_of_mem _ (ih h)

/-- Appending a fresh binding makes it the lookup result for its key. -/
theorem lookup_append_single (n : String) (lg : Logger) (l : List (String × Logger))
    (h : l.lookup n = none) : (l ++ [(n, lg)]).lookup n = some lg := by
  induction l with
  | nil => simp [List.lookup]
  | cons p t ih =>
    obtain ⟨k, b⟩ := p
    by_cases hk : n = k
    · subst hk
      simp [List.lookup] at h
    · have hbeq : (n == k) = false := by simp [hk]
      rw [List.cons_append]
      simp only [List.lookup, hbeq] at h ⊢
      exact ih h

/-- Claim C1: for every pair of levels L1 < L2, a logger whose runtime
threshold is L2 rejects a call at L1 before the format/sink path: the
runtime check record.level >= logger.current_level is false and the call
leaves the logger untouched, so there is no formatting, no sink
invocation, and no error-handler invocation. -/
theorem runtime_gate_filters (L1 L2 : Level) (lg : Logger) (fmt : String)
    (args : List String) (hlt : L1.toNat < L2.toNat) (hlvl : lg.currentLevel = L2) :
    lg.shouldLog L1 = false ∧ lg.log L1 fmt args = lg := by
  have hnot : ¬ (L2.toNat ≤ L1.toNat) := Nat.not_le.mpr hlt
  have hs : lg.shouldLog L1 = false := by
    simp [Logger.shouldLog, hlvl, hnot]
  exact ⟨hs, by simp [Logger.log, hs]⟩

/-- Witness for C1 at the concrete pair debug < info with an info-level spy
logger. -/
theorem runtime_gate_filters_witness :
    spyLogger.shouldLog Level.debug = false ∧ spyLogger.log Level.debug "x" [] = spyLogger :=
  runtime_gate_filters Level.debug Level.info spyLogger "x" [] (by decide) rfl

/-- Claim C2: every leveled call-site block whose level is strictly below
SPDLOG_ACTIVE_LEVEL expands to a no-op that evaluates none of its
arguments and has no observable side effect, for every logger and thus
regardless of the runtime threshold; at or above the threshold it expands
to the real dispatch; and each of the SPDLOG_LOGGER_TRACE ..
SPDLOG_LOGGER_CRITICAL and SPDLOG_TRACE .. SPDLOG_CRITICAL blocks follows
that common expansion shape. -/
theorem static_gate_elision (activeLevel : Nat) (lvl : Level) (lg : Logger)
    (fmt : String) (args : List String) (h : lvl.toNat < activeLevel) :
    leveledCallSiteExpansion activeLevel lvl = Expansion.noop ∧
    Expansion.run (leveledCallSiteExpansion activeLevel lvl) lg fmt args = (lg, false) ∧
    (∀ a l2, Level.toNat l2 < a → leveledCallSiteExpansion a l2 = Expansion.noop) ∧
    (∀ a l2, a ≤ Level.toNat l2 → leveledCallSiteExpansion a l2 = Expansion.dispatch l2) ∧
    (∀ a, SPDLOG_LOGGER_TRACE a = leveledCallSiteExpansion a Level.trace ∧
        SPDLOG_LOGGER_DEBUG a = leveledCallSiteExpansion a Level.debug ∧
        SPDLOG_LOGGER_INFO a = leveledCallSiteExpansion a Level.info ∧
        SPDLOG_LOGGER_WARN a = leveledCallSiteExpansion a Level.warn ∧
        SPDLOG_LOGGER_ERROR a = leveledCallSiteExpansion a Level.err ∧
        SPDLOG_LOGGER_CRITICAL a = leveledCallSiteExpansion a Level.critical ∧
        SPDLOG_TRACE a = SPDLOG_LOGGER_TRACE a ∧
        SPDLOG_DEBUG a = SPDLOG_LOGGER_DEBUG a ∧
        SPDLOG_INFO a = SPDLOG_LOGGER_INFO a ∧
        SPDLOG_WARN a = SPDLOG_LOGGER_WARN a ∧
        SPDLOG_ERROR a = SPDLOG_LOGGER_ERROR a ∧
        SPDLOG_CRITICAL a = SPDLOG_LOGGER_CRITICAL a) := by
  have hn : ¬ (activeLevel ≤ lvl.toNat) := Nat.not_le.mpr h
  have he : leveledCallSiteExpansion activeLevel lvl = Expansion.noop := by
    simp [leveledCallSiteExpansion, hn]
  refine ⟨he, by simp [he, Expansion.run], ?_, ?_, ?_⟩
  · intro a l2 h2
    simp [leveledCallSiteExpansion, Nat.not_le.mpr h2]
  · intro a l2 h2
    simp [leveledCallSiteExpansion, h2]
  · intro a
    exact ⟨rfl, rfl, rfl, rfl, rfl, rfl, rfl, rfl, rfl, rfl, rfl, rfl⟩

/-- Witness for C2: with SPDLOG_ACTIVE_LEVEL = 2 (info) a trace call site is
a no-op that evaluates nothing even against a trace-accepting logger. -/
theorem static_gate_elision_witness :
    leveledCallSiteExpansion 2 Level.trace = Expansion.noop ∧
    Expansion.run (leveledCallSiteExpansion 2 Level.trace) spyLogger "x" [] = (spyLogger, false) :=
  ⟨(static_gate_elision 2 Level.trace spyLogger "x" [] (by decide)).1,
   (static_gate_elision 2 Level.trace spyLogger "x" [] (by decide)).2.1⟩

/-- Claim C3: registering a logger whose name is already present fails with
a naming-conflict error, never overwrites, and leaves the registry the
caller holds unchanged, so a subsequent get on the name still returns the
first instance. -/
theorem register_duplicate_fails (r : Registry) (lgOld lgNew : Logger)
    (h : get lgNew.name r = some lgOld) :
    tryRegister lgNew r =
      (r, some ("logger with name " ++ lgNew.name ++ " already exists")) ∧
    get lgNew.name (tryRegister lgNew r).1 = some lgOld := by
  have hsome : (r.loggers.lookup lgNew.name).isSome = true := by
    unfold get at h
    rw [h]
    rfl
  have hreg : register_logger lgNew r =
      Except.error ("logger with name " ++ lgNew.name ++ " already exists") := by
    simp [register_logger, hsome]
  exact ⟨by simp [tryRegister, hreg], by simp [tryRegister, hreg]; exact h⟩

/-- Witness for C3: a second registration under svc fails and the first
instance is still returned. -/
theorem register_duplicate_fails_witness :
    tryRegister lgSecond regSvc =
      (regSvc, some ("logger with name " ++ lgSecond.name ++ " already exists")) ∧
    get lgSecond.name (tryRegister lgSecond regSvc).1 = some lgFirst :=
  register_duplicate_fails regSvc lgFirst lgSecond (by decide)

/-- Claim C4: get returns an absent result exactly when the name is
unregistered, and whenever it returns a logger that logger is registered
under the name; a lookup miss is an absent value, never an error. -/
theorem get_lookup_option (n : String) (r : Registry) :
    (get n r = none ↔ n ∉ r.loggers.map Prod.fst) ∧
    (∀ lg, get n r = some lg → (n, lg) ∈ r.loggers) := by
  constructor
  · exact lookup_eq_none_iff n r.loggers
  · intro lg h
    exact lookup_some_mem n lg r.loggers h

/-- Witness for C4: get on the concrete svc registry returns the registered
member, and get on an unknown name is none. -/
theorem get_lookup_option_witness :
    ("svc", lgFirst) ∈ regSvc.loggers ∧ get "unknown" regSvc = none :=
  ⟨(get_lookup_option "svc" regSvc).2 lgFirst (by decide),
   (get_lookup_option "unknown" regSvc).1.mpr (by decide)⟩

/-- Claim C5: shutdown stops the periodic-flush scheduler and performs
drop_all, leaving exactly a freshly initialized, empty registry, so every
subsequent lookup, registration, or default-logger operation behaves as
against the fresh registry and no use-after-shutdown error can arise. -/
theorem shutdown_behaves_fresh (r : Registry) :
    shutdown r = Registry.init ∧
    (shutdown r).flushTimers = [] ∧
    activeFlushCount (shutdown r) = 0 ∧
    (∀ n, get n (shutdown r) = get n Registry.init) ∧
    (∀ lg, register_logger lg (shutdown r) = register_logger lg Registry.init) ∧
    (∀ cfg, default_logger cfg (shutdown r) = default_logger cfg Registry.init) := by
  have h : shutdown r = Registry.init := rfl
  exact ⟨h, by rw [h]; rfl, by rw [h]; rfl, fun n => by rw [h], fun lg => by rw [h],
    fun cfg => by rw [h]⟩

/-- Claim C6: set_default_logger followed by default_logger returns exactly
the installed logger, identity included; and when no default has been set
the accessor never yields an absent value but lazily creates and stores
the baseline-configured logger. -/
theorem set_then_default_identity (cfg : GlobalConfig) (L : Logger) (r : Registry) :
    (default_logger cfg (set_default_logger L r)).1 = L ∧
    (r.defaultLogger = none →
      default_logger cfg r =
        (baselineLogger cfg, { r with defaultLogger := some (baselineLogger cfg) })) := by
  constructor
  · rfl
  · intro h
    obtain ⟨ls, dl, ft⟩ := r
    cases dl with
    | some x => simp at h
    | none => rfl

/-- Witness for C6 at a concrete logger and registries both with and
without an installed default: the identity holds when replacing the
already-installed lgFirst by lgSecond, and on the empty registry the
accessor lazily creates and stores the baseline logger. -/
theorem set_then_default_identity_witness :
    (default_logger GlobalConfig.init
        (set_default_logger lgSecond (set_default_logger lgFirst Registry.init))).1 = lgSecond ∧
    default_logger GlobalConfig.init Registry.init =
      (baselineLogger GlobalConfig.init,
        { Registry.init with defaultLogger := some (baselineLogger GlobalConfig.init) }) :=
  ⟨(set_then_default_identity GlobalConfig.init lgSecond
      (set_default_logger lgFirst Registry.init)).1,
   (set_then_default_identity GlobalConfig.init lgFirst Registry.init).2 rfl⟩

/-- Claim C7: a second flush_every call replaces the first timer rather
than stacking: afterwards the single active timer carries the new
interval, exactly one flush stream is active, and the state equals what a
single flush_every at the new interval would produce. -/
theorem flush_every_replaces (i1 i2 : Nat) (r : Registry) :
    (flush_every i2 (flush_every i1 r)).flushTimers = [i2] ∧
    activeFlushCount (flush_every i2 (flush_every i1 r)) = 1 ∧
    flush_every i2 (flush_every i1 r) = flush_every i2 r :=
  ⟨rfl, rfl, rfl⟩

/-- Claim C8: a raw level value that decodes to no level is rejected by
set_level with a synchronous failure at the call site; the ambient
configuration is unchanged, so the value is neither treated as trace nor
as off nor accepted as ambient state. -/
theorem set_level_rejects_invalid (raw : Nat) (cfg : GlobalConfig)
    (h : Level.ofNat? raw = none) :
    set_level raw cfg = Except.error "invalid level value" ∧
    trySetLevel raw cfg = (cfg, some "invalid level value") ∧
    (trySetLevel raw cfg).1.level = cfg.level := by
  have hs : set_level raw cfg = Except.error "invalid level value" := by
    unfold set_level
    rw [h]
  exact ⟨hs, by simp [trySetLevel, hs], by simp [trySetLevel, hs]⟩

/-- Witness for C8 at the unrecognized raw value 42. -/
theorem set_level_rejects_invalid_witness :
    set_level 42 GlobalConfig.init = Except.error "invalid level value" :=
  (set_level_rejects_invalid 42 GlobalConfig.init (by decide)).1

/-- Claim C9: registering a logger under a fresh name succeeds and a
subsequent get on that name returns the very instance that was
registered. -/
theorem register_get_roundtrip (lg : Logger) (r : Registry)
    (h : get lg.name r = none) :
    register_logger lg r = Except.ok { r with loggers := r.loggers ++ [(lg.name, lg)] } ∧
    (tryRegister lg r).2 = none ∧
    get lg.name (tryRegister lg r).1 = some lg := by
  have hl : r.loggers.lookup lg.name = none := h
  have hne : (r.loggers.lookup lg.name).isSome = false := by
    rw [hl]
    rfl
  have hreg : register_logger lg r =
      Except.ok { r with loggers := r.loggers ++ [(lg.name, lg)] } := by
    simp [register_logger, hne]
  refine ⟨hreg, by simp [tryRegister, hreg], ?_⟩
  simp [tryRegister, hreg]
  exact lookup_append_single lg.name lg r.loggers hl

/-- Witness for C9: registering into the empty registry and looking the
name up returns the registered instance. -/
theorem register_get_roundtrip_witness :
    get lgFirst.name (tryRegister lgFirst Registry.init).1 = some lgFirst :=
  (register_get_roundtrip lgFirst Registry.init rfl).2.2

/-- Claim C10: each leveled convenience wrapper, in both call shapes,
coincides with the default-logger log dispatch at its fixed level, with
error mapping to level err; the wrappers add no gating, state change, or
side effect of their own. -/
theorem leveled_wrappers_equiv (cfg : GlobalConfig) (fmt msg : String)
    (args : List String) (r : Registry) :
    trace cfg fmt args r = log cfg Level.trace fmt args r ∧
    debug cfg fmt args r = log cfg Level.debug fmt args r ∧
    info cfg fmt args r = log cfg Level.info fmt args r ∧
    warn cfg fmt args r = log cfg Level.warn fmt args r ∧
    error cfg fmt args r = log cfg Level.err fmt args r ∧
    critical cfg fmt args r = log cfg Level.critical fmt args r ∧
    traceStr cfg msg r = logStr cfg Level.trace msg r ∧
    debugStr cfg msg r = logStr cfg Level.debug msg r ∧
    infoStr cfg msg r = logStr cfg Level.info msg r ∧
    warnStr cfg msg r = logStr cfg Level.warn msg r ∧
    errorStr cfg msg r = logStr cfg Level.err msg r ∧
    criticalStr cfg msg r = logStr cfg Level.critical msg r :=
  ⟨rfl, rfl, rfl, rfl, rfl, rfl, rfl, rfl, rfl, rfl, rfl, rfl⟩

end spdlog
